import Mathlib

/-
Shallow embedding of the cell-segmentation annotation tool's core state
logic: the annotation store with its undo/redo action log
(frontend/src/hooks/useAnnotations.js), the SAM segmentation hook
(src/unnamed/part_001, useSAM), the label-transfer workflow
(frontend/src/hooks/useTransfer.js), and the App-level debounce effect and
batch transfer commit (src/unnamed/part_002).

External collaborator calls (the REST api in utils/api.js) are modelled by
passing their outcome in as an argument (or an oracle of outcomes), and each
operation additionally returns the list of collaborator calls it issued, so
that theorems can speak about exactly which delegated calls were made and
with which payloads.

Note on names: the JS sources use names such as saveAnnotation and
currentAnnotation; here the corresponding definitions are shortened to
saveAnno, currentAnno, and so on, with the structure of each body kept
line-for-line faithful to the source.
-/

/-- A prompt point as carried around by the UI and the segment calls
(an object with x, y and a positive/negative label in the source). -/
structure Point where
  x : Int
  y : Int
  label : Int
deriving DecidableEq

/-- One polygon: a flat list of coordinates, as stored inside the
segmentation field of an annotation. -/
abbrev Polygon := List Int

/-- A polygon set: the value of an annotation's segmentation field. -/
abbrev PolySet := List Polygon

/-- An annotation as held in the store's list (JS object with id,
class_id, class_name, segmentation, bbox, area). -/
structure Anno where
  id : Nat
  class_id : Int
  class_name : String
  segmentation : PolySet
  bbox : List Int
  area : Int
deriving DecidableEq

/-- The body sent with a createAnnotation collaborator call
(the object literal built in saveAnnotation and in the undo/redo
recreate branches). -/
structure CreatePayload where
  class_id : Int
  class_name : String
  segmentation : PolySet
  bbox : List Int
  area : Int
deriving DecidableEq

/-- The partial body sent with an updateAnnotation collaborator call.
Each field is an Option: some means the JS object literal contained that
key, none means the key was absent from the request body. -/
structure UpdatePayload where
  class_id : Option Int
  class_name : Option String
  segmentation : Option PolySet
  bbox : Option (List Int)
  area : Option Int
deriving DecidableEq

/-- A record of one delegated collaborator call, with its payload. -/
inductive ApiCall where
  | createCall (imageId : Option Nat) (payload : CreatePayload)
  | deleteCall (id : Nat)
  | updateCall (id : Nat) (payload : UpdatePayload)
  | mergeCall (ids : List Nat) (classId : Int) (className : String)
  | fetchCall (imageId : Nat)
  | genPointsCall (segmentation : PolySet) (bbox : List Int)
      (posCount negCount : Nat)
  | encodeCall (imageId : Nat)
  | segmentCall (imageId : Nat) (points : List Point)
      (existingPolygons : Option (List PolySet))
deriving DecidableEq

/-- An entry of the undo/redo stacks (the tagged objects pushed by
useAnnotations: type create / delete / update / merge). -/
inductive ActionRecord where
  | create (ann : Anno)
  | delete (ann : Anno)
  | update (oldAnn newAnn : Anno)
  | merge (mergedAnns : List Anno) (newAnn : Anno)
deriving DecidableEq

/-- The state owned by useAnnotations: the annotations list, the loading
flag, the error message, and the two action-log stacks (top = last). -/
structure AnnState where
  annotations : List Anno
  isLoading : Bool
  error : Option String
  undoStack : List ActionRecord
  redoStack : List ActionRecord
deriving DecidableEq

/-- The create body built from an in-memory annotation, as in the
undo/redo branches that recreate an annotation from a record. -/
def payloadOf (a : Anno) : CreatePayload :=
  { class_id := a.class_id, class_name := a.class_name,
    segmentation := a.segmentation, bbox := a.bbox, area := a.area }

/-- The update body built in the undo/redo branches for an update record:
the JS object literal contains only class_id and class_name. -/
def classOnlyPayload (a : Anno) : UpdatePayload :=
  { class_id := some a.class_id, class_name := some a.class_name,
    segmentation := none, bbox := none, area := none }

/-- Modelled from the spec: the update body that the spec's inverse table
(update(new.id, old.*)) would require, carrying every field of the
annotation. Used only to compare the claimed behaviour with the source. -/
def fullPayloadOf (a : Anno) : UpdatePayload :=
  { class_id := some a.class_id, class_name := some a.class_name,
    segmentation := some a.segmentation, bbox := some a.bbox,
    area := some a.area }

/-- useAnnotations.saveAnnotation. The collaborator outcome of the
createAnnotation call is the argument res; the result is the new state,
the value returned/thrown to the caller (ok none models the early
`return null`), and the calls issued. -/
def saveAnno (imageId : Option Nat) (segmentation : PolySet)
    (bbox : List Int) (area : Int) (classId : Int) (className : String)
    (res : Except String Anno) (s : AnnState) :
    AnnState × Except String (Option Anno) × List ApiCall :=
  match imageId with
  | none => (s, .ok none, [])
  | some img =>
    let p : CreatePayload :=
      { class_id := classId, class_name := className,
        segmentation := segmentation, bbox := bbox, area := area }
    match res with
    | .ok ann =>
      ({ s with annotations := s.annotations ++ [ann],
                undoStack := s.undoStack ++ [.create ann],
                redoStack := [] },
       .ok (some ann), [.createCall (some img) p])
    | .error e =>
      ({ s with error := some e }, .error e, [.createCall (some img) p])

/-- useAnnotations.deleteAnnotation. ok () models both the silent no-op
on an unknown id and the successful path (JS returns undefined). -/
def deleteAnno (annotationId : Nat) (res : Except String Unit)
    (s : AnnState) : AnnState × Except String Unit × List ApiCall :=
  match s.annotations.find? (fun a => a.id == annotationId) with
  | none => (s, .ok (), [])
  | some ann =>
    match res with
    | .ok _ =>
      ({ s with
          annotations := s.annotations.filter (fun a => a.id != annotationId),
          undoStack := s.undoStack ++ [.delete ann],
          redoStack := [] },
       .ok (), [.deleteCall annotationId])
    | .error e =>
      ({ s with error := some e }, .error e, [.deleteCall annotationId])

/-- useAnnotations.updateAnnotation. -/
def updateAnno (annotationId : Nat) (data : UpdatePayload)
    (res : Except String Anno) (s : AnnState) :
    AnnState × Except String (Option Anno) × List ApiCall :=
  match s.annotations.find? (fun a => a.id == annotationId) with
  | none => (s, .ok none, [])
  | some oldAnn =>
    match res with
    | .ok updated =>
      ({ s with
          annotations :=
            s.annotations.map
              (fun a => if a.id == annotationId then updated else a),
          undoStack := s.undoStack ++ [.update oldAnn updated],
          redoStack := [] },
       .ok (some updated), [.updateCall annotationId data])
    | .error e =>
      ({ s with error := some e }, .error e, [.updateCall annotationId data])

/-- useAnnotations.mergeAnnotations. -/
def mergeAnnos (imageId : Option Nat) (annotationIds : List Nat)
    (classId : Int) (className : String) (res : Except String Anno)
    (s : AnnState) : AnnState × Except String (Option Anno) × List ApiCall :=
  if imageId.isNone || annotationIds.length < 2 then (s, .ok none, [])
  else
    let mergedAnns :=
      s.annotations.filter (fun a => annotationIds.contains a.id)
    match res with
    | .ok merged =>
      ({ s with
          annotations :=
            s.annotations.filter (fun a => !(annotationIds.contains a.id))
              ++ [merged],
          undoStack := s.undoStack ++ [.merge mergedAnns merged],
          redoStack := [] },
       .ok (some merged), [.mergeCall annotationIds classId className])
    | .error e =>
      ({ s with error := some e }, .error e,
       [.mergeCall annotationIds classId className])

/-- The load effect of useAnnotations (runs when imageId changes): with no
image it only empties the annotations list and returns early; otherwise it
fetches, and only on success replaces the list and clears both stacks. -/
def loadEffect (imageId : Option Nat)
    (fetchResult : Except String (List Anno)) (s : AnnState) :
    AnnState × List ApiCall :=
  match imageId with
  | none => ({ s with annotations := [] }, [])
  | some img =>
    match fetchResult with
    | .ok data =>
      ({ s with annotations := data, undoStack := [], redoStack := [],
                error := none, isLoading := false },
       [.fetchCall img])
    | .error e =>
      ({ s with error := some e, isLoading := false }, [.fetchCall img])

/-- Outcomes of the delegated calls that undo/redo may issue. -/
structure CollabOracle where
  delRes : Nat → Except String Unit
  createRes : Option Nat → CreatePayload → Except String Anno
  updateRes : Nat → UpdatePayload → Except String Anno
  mergeRes : List Nat → Int → String → Except String Anno

/-- The recreate loop inside the merge branch of undo: create each source
annotation again, stopping at the first failure. -/
def recreateAll (imageId : Option Nat) (o : CollabOracle) :
    List Anno → Except String (List Anno) × List ApiCall
  | [] => (.ok [], [])
  | a :: rest =>
    match o.createRes imageId (payloadOf a) with
    | .error e => (.error e, [.createCall imageId (payloadOf a)])
    | .ok newAnn =>
      match recreateAll imageId o rest with
      | (.ok anns, calls) =>
        (.ok (newAnn :: anns), .createCall imageId (payloadOf a) :: calls)
      | (.error e, calls) =>
        (.error e, .createCall imageId (payloadOf a) :: calls)

/-- useAnnotations.undo: pops the top undo record before the try block, so
on failure the record is lost (error set, nothing pushed to redo). On
success the (possibly rebound) record is pushed onto the redo stack. -/
def undo (imageId : Option Nat) (o : CollabOracle) (s : AnnState) :
    AnnState × List ApiCall :=
  match s.undoStack.getLast? with
  | none => (s, [])
  | some act =>
    let s0 := { s with undoStack := s.undoStack.dropLast }
    match act with
    | .create ann =>
      match o.delRes ann.id with
      | .ok _ =>
        ({ s0 with
            annotations := s0.annotations.filter (fun a => a.id != ann.id),
            redoStack := s0.redoStack ++ [.create ann] },
         [.deleteCall ann.id])
      | .error e => ({ s0 with error := some e }, [.deleteCall ann.id])
    | .delete ann =>
      match o.createRes imageId (payloadOf ann) with
      | .ok newAnn =>
        ({ s0 with annotations := s0.annotations ++ [newAnn],
                   redoStack := s0.redoStack ++ [.delete newAnn] },
         [.createCall imageId (payloadOf ann)])
      | .error e =>
        ({ s0 with error := some e }, [.createCall imageId (payloadOf ann)])
    | .update oldAnn newAnn =>
      match o.updateRes newAnn.id (classOnlyPayload oldAnn) with
      | .ok updated =>
        ({ s0 with
            annotations :=
              s0.annotations.map
                (fun a => if a.id == newAnn.id then updated else a),
            redoStack := s0.redoStack ++ [.update oldAnn newAnn] },
         [.updateCall newAnn.id (classOnlyPayload oldAnn)])
      | .error e =>
        ({ s0 with error := some e },
         [.updateCall newAnn.id (classOnlyPayload oldAnn)])
    | .merge sources merged =>
      match o.delRes merged.id with
      | .error e => ({ s0 with error := some e }, [.deleteCall merged.id])
      | .ok _ =>
        match recreateAll imageId o sources with
        | (.ok recreated, calls) =>
          ({ s0 with
              annotations :=
                s0.annotations.filter (fun a => a.id != merged.id)
                  ++ recreated,
              redoStack := s0.redoStack ++ [.merge recreated merged] },
           .deleteCall merged.id :: calls)
        | (.error e, calls) =>
          ({ s0 with error := some e }, .deleteCall merged.id :: calls)

/-- useAnnotations.redo: symmetric to undo, popping from the redo stack
and re-applying the forward effect. -/
def redo (imageId : Option Nat) (o : CollabOracle) (s : AnnState) :
    AnnState × List ApiCall :=
  match s.redoStack.getLast? with
  | none => (s, [])
  | some act =>
    let s0 := { s with redoStack := s.redoStack.dropLast }
    match act with
    | .create ann =>
      match o.createRes imageId (payloadOf ann) with
      | .ok newAnn =>
        ({ s0 with annotations := s0.annotations ++ [newAnn],
                   undoStack := s0.undoStack ++ [.create newAnn] },
         [.createCall imageId (payloadOf ann)])
      | .error e =>
        ({ s0 with error := some e }, [.createCall imageId (payloadOf ann)])
    | .delete ann =>
      match o.delRes ann.id with
      | .ok _ =>
        ({ s0 with
            annotations := s0.annotations.filter (fun a => a.id != ann.id),
            undoStack := s0.undoStack ++ [.delete ann] },
         [.deleteCall ann.id])
      | .error e => ({ s0 with error := some e }, [.deleteCall ann.id])
    | .update oldAnn newAnn =>
      match o.updateRes oldAnn.id (classOnlyPayload newAnn) with
      | .ok updated =>
        ({ s0 with
            annotations :=
              s0.annotations.map
                (fun a => if a.id == oldAnn.id then updated else a),
            undoStack := s0.undoStack ++ [.update oldAnn newAnn] },
         [.updateCall oldAnn.id (classOnlyPayload newAnn)])
      | .error e =>
        ({ s0 with error := some e },
         [.updateCall oldAnn.id (classOnlyPayload newAnn)])
    | .merge sources merged =>
      let ids := sources.map (fun a => a.id)
      match o.mergeRes ids merged.class_id merged.class_name with
      | .ok m =>
        ({ s0 with
            annotations :=
              s0.annotations.filter (fun a => !(ids.contains a.id)) ++ [m],
            undoStack := s0.undoStack ++ [.merge sources m] },
         [.mergeCall ids merged.class_id merged.class_name])
      | .error e =>
        ({ s0 with error := some e },
         [.mergeCall ids merged.class_id merged.class_name])

/-- The PreviewResult produced by the segmentation oracle:
polygon set, bbox and area. -/
structure Preview where
  polygon : PolySet
  bbox : List Int
  area : Int
deriving DecidableEq

/-- State owned by useSAM (src/unnamed/part_001). The transient
isEncoding/isSegmenting flags are set and reset within each call (finally
blocks), so between operations they are always false and are omitted. -/
structure SamState where
  preview : Option Preview
  encodedImageId : Option Nat
  samError : Option String
deriving DecidableEq

/-- Outcomes of the collaborator calls issued by useSAM. -/
structure SamEnv where
  encodeRes : Nat → Except String Unit
  segmentRes : Nat → List Point → Option (List PolySet) →
    Except String Preview

/-- useSAM.segment: with an empty point list it clears the preview and
returns null without any call; otherwise it encodes the image first when
the single-slot cache misses, then delegates segmentImage and stores the
result as the preview. Errors propagate to the caller. -/
def samSegment (env : SamEnv) (imageId : Nat) (points : List Point)
    (existingPolygons : Option (List PolySet)) (sam : SamState) :
    SamState × Except String (Option Preview) × List ApiCall :=
  if points.isEmpty then
    ({ sam with preview := none }, .ok none, [])
  else
    let sam := { sam with samError := none }
    if sam.encodedImageId == some imageId then
      match env.segmentRes imageId points existingPolygons with
      | .ok r =>
        ({ sam with preview := some r }, .ok (some r),
         [.segmentCall imageId points existingPolygons])
      | .error e =>
        ({ sam with samError := some e }, .error e,
         [.segmentCall imageId points existingPolygons])
    else
      match env.encodeRes imageId with
      | .error e => ({ sam with samError := some e }, .error e,
                     [.encodeCall imageId])
      | .ok _ =>
        let sam := { sam with encodedImageId := some imageId }
        match env.segmentRes imageId points existingPolygons with
        | .ok r =>
          ({ sam with preview := some r }, .ok (some r),
           [.encodeCall imageId, .segmentCall imageId points existingPolygons])
        | .error e =>
          ({ sam with samError := some e }, .error e,
           [.encodeCall imageId, .segmentCall imageId points existingPolygons])

/-- One entry of confirmedPreviews in useTransfer: the spread preview
fields plus classId, className and sourceId taken from the source
annotation being transferred. -/
structure ConfirmedPreview where
  polygon : PolySet
  bbox : List Int
  area : Int
  classId : Int
  className : String
  sourceId : Nat
deriving DecidableEq

/-- The transfer point-count settings. -/
structure Settings where
  positivePoints : Nat
  negativePoints : Nat
deriving DecidableEq

/-- The transfer workflow state owned by useTransfer. -/
structure TransferState where
  isActive : Bool
  sourceAnnotations : List Anno
  currentIndex : Nat
  confirmedPreviews : List ConfirmedPreview
  transferPoints : Option (List Point)
  isLoading : Bool
  error : Option String
deriving DecidableEq

/-- useTransfer's currentAnnotation memo: the source annotation at
currentIndex while active (JS indexing yields null past the end). -/
def currentAnno (t : TransferState) : Option Anno :=
  if t.isActive && !t.sourceAnnotations.isEmpty then
    t.sourceAnnotations[t.currentIndex]?
  else none

/-- useTransfer's canStartTransfer memo. -/
def canStartTransfer (previousImageId : Option Nat) (isActive : Bool) :
    Bool :=
  previousImageId.isSome && !isActive

/-- The response of a generateTransferPoints collaborator call. -/
structure PointsData where
  positive_points : List Point
  negative_points : List Point
deriving DecidableEq

/-- The outcome of a generateTransferPoints call, given the source
segmentation, bbox and the two point counts. -/
abbrev GenEnv :=
  PolySet → List Int → Nat → Nat → Except String PointsData

/-- The exclusion list built inside generateAndSegment: the current
slice's annotation segmentations (empty when the hook argument is
null/undefined) followed by the polygons of the already-confirmed
previews. The JS guard `if (p.polygon)` is always taken because the
polygon field of a confirmed preview is an array (arrays are truthy). -/
def buildExclusions (existingAnns : Option (List Anno))
    (confirmed : List ConfirmedPreview) : List PolySet :=
  (match existingAnns with
   | some l => l.map (fun a => a.segmentation)
   | none => []) ++ confirmed.map (fun p => p.polygon)

/-- An invocation of sam.segment as made by generateAndSegment: the
image, the combined point list, and the existingPolygons argument
(none models passing null). -/
structure SegInvocation where
  imageId : Nat
  points : List Point
  existingPolygons : Option (List PolySet)
deriving DecidableEq

/-- The result of one generateAndSegment run: the new transfer and SAM
states, the collaborator calls issued, and the sam.segment invocation
that was made, if any. -/
structure GASResult where
  transfer : TransferState
  sam : SamState
  calls : List ApiCall
  segInvocation : Option SegInvocation
deriving DecidableEq

/-- useTransfer.generateAndSegment: generates prompt points for the given
source annotation, records them in transferPoints, builds the exclusion
list, and invokes sam.segment with it (passing null instead of an empty
list). Any failure sets the transfer error and clears transferPoints. -/
def generateAndSegment (genEnv : GenEnv) (samEnv : SamEnv)
    (currentImageId : Option Nat) (src : Option Anno) (stg : Settings)
    (existingAnns : Option (List Anno)) (sam : SamState)
    (t : TransferState) : GASResult :=
  match currentImageId, src with
  | some img, some a =>
    let t := { t with isLoading := true, error := none }
    let genCall := ApiCall.genPointsCall a.segmentation a.bbox
      stg.positivePoints stg.negativePoints
    match genEnv a.segmentation a.bbox stg.positivePoints
        stg.negativePoints with
    | .error e =>
      let t2 := { t with error := some e, transferPoints := none,
                         isLoading := false }
      { transfer := t2, sam := sam, calls := [genCall],
        segInvocation := none }
    | .ok pd =>
      let allPoints := pd.positive_points ++ pd.negative_points
      let t := { t with transferPoints := some allPoints }
      let exPolys := buildExclusions existingAnns t.confirmedPreviews
      let arg := if exPolys.length > 0 then some exPolys else none
      let inv : SegInvocation :=
        { imageId := img, points := allPoints, existingPolygons := arg }
      let r := samSegment samEnv img allPoints arg sam
      match r.2.1 with
      | .ok _ =>
        { transfer := { t with isLoading := false }, sam := r.1,
          calls := genCall :: r.2.2, segInvocation := some inv }
      | .error e =>
        let t2 := { t with error := some e, transferPoints := none,
                           isLoading := false }
        { transfer := t2, sam := r.1, calls := genCall :: r.2.2,
          segInvocation := some inv }
  | _, _ =>
    { transfer := t, sam := sam, calls := [], segInvocation := none }

/-- useTransfer.startTransfer: guards only on the existence of a previous
slice (there is no isActive guard in the source); on a successful,
non-empty fetch it snapshots the source list, resets the index and the
confirmed list, activates, and runs generateAndSegment for the first
source annotation. -/
def startTransfer (genEnv : GenEnv) (samEnv : SamEnv)
    (previousImageId currentImageId : Option Nat)
    (fetchResult : Except String (List Anno)) (stg : Settings)
    (existingAnns : Option (List Anno)) (sam : SamState)
    (t : TransferState) : TransferState × SamState × List ApiCall :=
  match previousImageId with
  | none => ({ t with error := some "No previous slice available" }, sam, [])
  | some prevId =>
    let t := { t with isLoading := true, error := none }
    match fetchResult with
    | .error e =>
      ({ t with error := some e, isLoading := false }, sam,
       [.fetchCall prevId])
    | .ok prevAnns =>
      if prevAnns.isEmpty then
        ({ t with error := some "Previous slice has no annotations",
                  isLoading := false }, sam, [.fetchCall prevId])
      else
        let t := { t with sourceAnnotations := prevAnns, currentIndex := 0,
                          confirmedPreviews := [], isActive := true }
        let r := generateAndSegment genEnv samEnv currentImageId
          prevAnns[0]? stg existingAnns sam t
        ({ r.transfer with isLoading := false }, r.sam,
         .fetchCall prevId :: r.calls)

/-- The result of a confirmCurrent invocation: the new transfer state,
the new sam preview, and the source annotation (if any) for which a
regeneration was triggered. -/
structure ConfirmResult where
  transfer : TransferState
  preview : Option Preview
  regenTarget : Option Anno
deriving DecidableEq

/-- useTransfer.confirmCurrent: a no-op without a preview or a current
source annotation; otherwise appends the confirmed entry and, only when
further source annotations remain (currentIndex < length - 1 in JS,
rendered here as currentIndex + 1 < length), advances the index and
regenerates; at the last source annotation it clears the preview and the
transfer points instead. -/
def confirmCurrent (preview : Option Preview) (t : TransferState) :
    ConfirmResult :=
  match preview, currentAnno t with
  | some pv, some cur =>
    let entry : ConfirmedPreview :=
      { polygon := pv.polygon, bbox := pv.bbox, area := pv.area,
        classId := cur.class_id, className := cur.class_name,
        sourceId := cur.id }
    let t1 := { t with confirmedPreviews := t.confirmedPreviews ++ [entry] }
    if t1.currentIndex + 1 < t1.sourceAnnotations.length then
      { transfer := { t1 with currentIndex := t1.currentIndex + 1 },
        preview := preview,
        regenTarget := t1.sourceAnnotations[t1.currentIndex + 1]? }
    else
      { transfer := { t1 with transferPoints := none }, preview := none,
        regenTarget := none }
  | _, _ => { transfer := t, preview := preview, regenTarget := none }

/-- useTransfer's allProcessed computed value
(isActive && currentIndex >= length - 1 && !preview). -/
def allProcessed (preview : Option Preview) (t : TransferState) : Bool :=
  t.isActive && decide (t.sourceAnnotations.length - 1 ≤ t.currentIndex)
    && preview.isNone

/-- useTransfer.cancelTransfer: discards all transfer state and clears
the preview. -/
def cancelTransfer (t : TransferState) (_preview : Option Preview) :
    TransferState × Option Preview :=
  ({ t with isActive := false, sourceAnnotations := [], currentIndex := 0,
            confirmedPreviews := [], transferPoints := none,
            error := none }, none)

/-- The loop body of App.handleSaveAllTransfers: saveAnnotation is awaited
for each confirmed preview in order; the first thrown error aborts the
loop (the Bool result is false when that happened). The oracle gives the
collaborator outcome of the n-th create call of this loop. -/
def commitLoop (imageId : Option Nat) (oracle : Nat → Except String Anno) :
    List ConfirmedPreview → AnnState → AnnState × Bool
  | [], s => (s, true)
  | p :: rest, s =>
    let r := saveAnno imageId p.polygon p.bbox p.area p.classId p.className
      (oracle 0) s
    match r.2.1 with
    | .error _ => (r.1, false)
    | .ok _ => commitLoop imageId (fun n => oracle (n + 1)) rest r.1

/-- App.handleSaveAllTransfers (src/unnamed/part_002): iterates the
confirmed previews through saveAnnotation; only when the whole loop
succeeds is cancelTransfer called; a failure is caught and logged,
leaving the transfer state and the confirmed list untouched. -/
def handleSaveAllTransfers (imageId : Option Nat)
    (oracle : Nat → Except String Anno) (s : AnnState) (t : TransferState)
    (preview : Option Preview) : AnnState × TransferState × Option Preview :=
  if t.confirmedPreviews.isEmpty then (s, t, preview)
  else
    let r := commitLoop imageId oracle t.confirmedPreviews s
    if r.2 then
      let c := cancelTransfer t preview
      (r.1, c.1, c.2)
    else (r.1, t, preview)

/-- State of the App-level segment debounce effect
(src/unnamed/part_002, lines 594-609): the pending timer (its deadline
and the point list it would send) and the point lists of the segment
calls already issued. -/
structure DebState where
  pending : Option (Nat × List Point)
  calls : List (List Point)
deriving DecidableEq

/-- One re-run of the debounce effect at time ev.1 with the new point
list ev.2: a pending timer whose deadline already passed has fired
(issuing its call); the effect cleanup then cancels any still-pending
timer, and with a non-empty point list a new 100ms timer is started. -/
def debStep (s : DebState) (ev : Nat × List Point) : DebState :=
  let fired : DebState :=
    match s.pending with
    | some (ft, ps) =>
      if ft ≤ ev.1 then { pending := none, calls := s.calls ++ [ps] } else s
    | none => s
  if ev.2.isEmpty then { fired with pending := none }
  else { fired with pending := some (ev.1 + 100, ev.2) }

/-- Processing a whole sequence of effect re-runs from the initial state
(no pending timer, no calls yet). -/
def debRun (events : List (Nat × List Point)) : DebState :=
  events.foldl debStep { pending := none, calls := [] }

/-- Letting time pass after the last event: a still-pending timer fires
and issues its call. Returns the point lists of all issued calls. -/
def debFlush (s : DebState) : List (List Point) :=
  s.calls ++ (match s.pending with | some (_, ps) => [ps] | none => [])

/-- The effect re-runs produced by a sequence of single point additions:
the n-th re-run sees the accumulated point list. -/
def cumulEvents (acc : List Point) : List (Nat × Point) →
    List (Nat × List Point)
  | [] => []
  | (t, p) :: rest => (t, acc ++ [p]) :: cumulEvents (acc ++ [p]) rest

/-- All additions fall inside the debounce quiet window: each event is
strictly later than the previous one and strictly less than 100ms after
it. -/
def withinWindowB : Nat → List (Nat × Point) → Bool
  | _, [] => true
  | t0, (t, _) :: rest =>
    decide (t0 < t) && decide (t < t0 + 100) && withinWindowB t rest

/-- The time of the last of a list of timed events, with a default. -/
def lastTimeD (t0 : Nat) : List (Nat × Point) → Nat
  | [] => t0
  | (t, _) :: rest => lastTimeD t rest

/-- A sample annotation (the spec's unit-square example). -/
def annA : Anno :=
  { id := 1, class_id := 1, class_name := "cell",
    segmentation := [[0, 0, 10, 0, 10, 10, 0, 10]],
    bbox := [0, 0, 10, 10], area := 100 }

/-- A second sample annotation, differing from annA in every field. -/
def annB : Anno :=
  { id := 2, class_id := 2, class_name := "nucleus",
    segmentation := [[0, 0, 4, 0, 4, 4, 0, 4]],
    bbox := [0, 0, 4, 4], area := 16 }

/-- The store state right after mounting with no image. -/
def emptyAnnState : AnnState :=
  { annotations := [], isLoading := false, error := none,
    undoStack := [], redoStack := [] }

/-- A store state with one annotation and one record on each stack. -/
def stHist : AnnState :=
  { emptyAnnState with
      annotations := [annA]
      undoStack := [ActionRecord.create annA]
      redoStack := [ActionRecord.delete annB] }

/-- A store state whose top undo record is an update from annA to annB. -/
def stUpd : AnnState :=
  { emptyAnnState with
      annotations := [annB]
      undoStack := [ActionRecord.update annA annB] }

/-- A store state whose top redo record is an update from annA to annB. -/
def stRedoUpd : AnnState :=
  { emptyAnnState with
      annotations := [annA]
      redoStack := [ActionRecord.update annA annB] }

/-- A collaborator oracle whose calls all succeed, echoing payloads back. -/
def oracle0 : CollabOracle :=
  { delRes := fun _ => .ok (),
    createRes := fun _ p =>
      .ok { id := 99, class_id := p.class_id, class_name := p.class_name,
            segmentation := p.segmentation, bbox := p.bbox,
            area := p.area },
    updateRes := fun i p =>
      .ok { id := i, class_id := p.class_id.getD 0,
            class_name := p.class_name.getD "",
            segmentation := p.segmentation.getD [],
            bbox := p.bbox.getD [], area := p.area.getD 0 },
    mergeRes := fun _ cid cname =>
      .ok { id := 50, class_id := cid, class_name := cname,
            segmentation := [], bbox := [], area := 0 } }

/-- A delegated-call result propagated an error to the caller. -/
def propagatesError {α : Type} (r : Except String α) : Prop :=
  ∃ e, r = Except.error e

/-- C1, counterexample. The claim says undo of an update record issues
update(new.id, old.*) carrying ALL of the old annotation's fields. At a
concrete state whose top undo record is update(annA, annB), the issued
call is not updateCall annB.id (fullPayloadOf annA): the real request
body omits segmentation, bbox and area. -/
theorem C1_counterexample :
    ¬ ((undo (some 7) oracle0 stUpd).2
        = [ApiCall.updateCall annB.id (fullPayloadOf annA)]) := by
  decide

/-- C1, amended: undo of an update record issues exactly one delegated
update call addressed to the new annotation's id whose body carries only
the old class_id and class_name (segmentation, bbox and area are absent),
and redo symmetrically issues update(old.id) carrying only the new
class_id and class_name. The issued call is a function of the record
alone, so each record is self-sufficient to compute it without re-reading
the store. -/
theorem C1_update_inverse_class_fields_only :
    (∀ (img : Option Nat) (o : CollabOracle) (s : AnnState)
        (oldAnn newAnn : Anno),
        s.undoStack.getLast? = some (.update oldAnn newAnn) →
        (undo img o s).2
          = [ApiCall.updateCall newAnn.id (classOnlyPayload oldAnn)]) ∧
    (∀ (img : Option Nat) (o : CollabOracle) (s : AnnState)
        (oldAnn newAnn : Anno),
        s.redoStack.getLast? = some (.update oldAnn newAnn) →
        (redo img o s).2
          = [ApiCall.updateCall oldAnn.id (classOnlyPayload newAnn)]) := by
  constructor
  · intro img o s oldAnn newAnn h
    unfold undo
    rw [h]
    dsimp only
    cases o.updateRes newAnn.id (classOnlyPayload oldAnn) <;> rfl
  · intro img o s oldAnn newAnn h
    unfold redo
    rw [h]
    dsimp only
    cases o.updateRes oldAnn.id (classOnlyPayload newAnn) <;> rfl

/-- C1, witness: the amended statement applied at a concrete store state
for both the undo and the redo direction. -/
theorem C1_witness :
    (undo (some 7) oracle0 stUpd).2
        = [ApiCall.updateCall annB.id (classOnlyPayload annA)] ∧
    (redo (some 7) oracle0 stRedoUpd).2
        = [ApiCall.updateCall annA.id (classOnlyPayload annB)] :=
  ⟨C1_update_inverse_class_fields_only.1 (some 7) oracle0 stUpd annA annB
      (by decide),
   C1_update_inverse_class_fields_only.2 (some 7) oracle0 stRedoUpd annA annB
      (by decide)⟩

/-- C2: every successful mutating operation (create via saveAnnotation,
delete, update, merge) empties the redo stack — even if it was non-empty
before — and appends exactly one record on top of the prior undo stack. -/
theorem C2_success_clears_redo_appends_one_record :
    (∀ (img : Nat) (seg : PolySet) (bbox : List Int) (area : Int)
        (classId : Int) (className : String) (a : Anno) (s : AnnState),
        (saveAnno (some img) seg bbox area classId className
          (.ok a) s).1.redoStack = [] ∧
        (saveAnno (some img) seg bbox area classId className
          (.ok a) s).1.undoStack = s.undoStack ++ [.create a]) ∧
    (∀ (aid : Nat) (s : AnnState) (found : Anno),
        s.annotations.find? (fun x => x.id == aid) = some found →
        (deleteAnno aid (.ok ()) s).1.redoStack = [] ∧
        (deleteAnno aid (.ok ()) s).1.undoStack
          = s.undoStack ++ [.delete found]) ∧
    (∀ (aid : Nat) (data : UpdatePayload) (u : Anno) (s : AnnState)
        (found : Anno),
        s.annotations.find? (fun x => x.id == aid) = some found →
        (updateAnno aid data (.ok u) s).1.redoStack = [] ∧
        (updateAnno aid data (.ok u) s).1.undoStack
          = s.undoStack ++ [.update found u]) ∧
    (∀ (img : Nat) (ids : List Nat) (classId : Int) (className : String)
        (m : Anno) (s : AnnState),
        2 ≤ ids.length →
        (mergeAnnos (some img) ids classId className (.ok m) s).1.redoStack
          = [] ∧
        (mergeAnnos (some img) ids classId className (.ok m) s).1.undoStack
          = s.undoStack
            ++ [.merge (s.annotations.filter (fun a => ids.contains a.id)) m]) := by
  refine ⟨fun _ _ _ _ _ _ _ _ => ⟨rfl, rfl⟩, ?_, ?_, ?_⟩
  · intro aid s found h
    unfold deleteAnno
    rw [h]
    exact ⟨rfl, rfl⟩
  · intro aid data u s found h
    unfold updateAnno
    rw [h]
    exact ⟨rfl, rfl⟩
  · intro img ids classId className m s h
    unfold mergeAnnos
    rw [if_neg]
    · exact ⟨rfl, rfl⟩
    · simp [Nat.not_lt.mpr h]

/-- C2, witness: the four conclusions at concrete states, with a
non-empty redo stack beforehand in each case. -/
theorem C2_witness :
    ((saveAnno (some 3) annB.segmentation annB.bbox annB.area annB.class_id
        annB.class_name (.ok annB) stHist).1.redoStack = [] ∧
      (saveAnno (some 3) annB.segmentation annB.bbox annB.area annB.class_id
        annB.class_name (.ok annB) stHist).1.undoStack
        = stHist.undoStack ++ [.create annB]) ∧
    ((deleteAnno 1 (.ok ()) stHist).1.redoStack = [] ∧
      (deleteAnno 1 (.ok ()) stHist).1.undoStack
        = stHist.undoStack ++ [.delete annA]) ∧
    ((updateAnno 1 (classOnlyPayload annB) (.ok annB) stHist).1.redoStack
        = [] ∧
      (updateAnno 1 (classOnlyPayload annB) (.ok annB) stHist).1.undoStack
        = stHist.undoStack ++ [.update annA annB]) ∧
    ((mergeAnnos (some 3) [1, 2] 1 "cell" (.ok annB) stHist).1.redoStack
        = [] ∧
      (mergeAnnos (some 3) [1, 2] 1 "cell" (.ok annB) stHist).1.undoStack
        = stHist.undoStack
          ++ [.merge (stHist.annotations.filter
                (fun a => [1, 2].contains a.id)) annB]) :=
  ⟨C2_success_clears_redo_appends_one_record.1 3 annB.segmentation annB.bbox
      annB.area annB.class_id annB.class_name annB stHist,
   C2_success_clears_redo_appends_one_record.2.1 1 stHist annA (by decide),
   C2_success_clears_redo_appends_one_record.2.2.1 1 (classOnlyPayload annB)
      annB stHist annA (by decide),
   C2_success_clears_redo_appends_one_record.2.2.2 3 [1, 2] 1 "cell" annB
      stHist (by decide)⟩

/-- C4: when the delegated collaborator call of a forward operation
fails, the local annotations list, the undo stack and the redo stack are
all unchanged, the error message is set, and the error propagates to the
caller. -/
theorem C4_forward_failure_is_atomic :
    (∀ (img : Nat) (seg : PolySet) (bbox : List Int) (area : Int)
        (classId : Int) (className : String) (e : String) (s : AnnState),
        (saveAnno (some img) seg bbox area classId className
          (.error e) s).1.annotations = s.annotations ∧
        (saveAnno (some img) seg bbox area classId className
          (.error e) s).1.undoStack = s.undoStack ∧
        (saveAnno (some img) seg bbox area classId className
          (.error e) s).1.redoStack = s.redoStack ∧
        (saveAnno (some img) seg bbox area classId className
          (.error e) s).1.error = some e ∧
        (saveAnno (some img) seg bbox area classId className
          (.error e) s).2.1 = .error e) ∧
    (∀ (aid : Nat) (e : String) (s : AnnState) (found : Anno),
        s.annotations.find? (fun x => x.id == aid) = some found →
        (deleteAnno aid (.error e) s).1.annotations = s.annotations ∧
        (deleteAnno aid (.error e) s).1.undoStack = s.undoStack ∧
        (deleteAnno aid (.error e) s).1.redoStack = s.redoStack ∧
        (deleteAnno aid (.error e) s).1.error = some e ∧
        (deleteAnno aid (.error e) s).2.1 = .error e) ∧
    (∀ (aid : Nat) (data : UpdatePayload) (e : String) (s : AnnState)
        (found : Anno),
        s.annotations.find? (fun x => x.id == aid) = some found →
        (updateAnno aid data (.error e) s).1.annotations = s.annotations ∧
        (updateAnno aid data (.error e) s).1.undoStack = s.undoStack ∧
        (updateAnno aid data (.error e) s).1.redoStack = s.redoStack ∧
        (updateAnno aid data (.error e) s).1.error = some e ∧
        (updateAnno aid data (.error e) s).2.1 = .error e) ∧
    (∀ (img : Nat) (ids : List Nat) (classId : Int) (className : String)
        (e : String) (s : AnnState),
        2 ≤ ids.length →
        (mergeAnnos (some img) ids classId className
          (.error e) s).1.annotations = s.annotations ∧
        (mergeAnnos (some img) ids classId className
          (.error e) s).1.undoStack = s.undoStack ∧
        (mergeAnnos (some img) ids classId className
          (.error e) s).1.redoStack = s.redoStack ∧
        (mergeAnnos (some img) ids classId className
          (.error e) s).1.error = some e ∧
        (mergeAnnos (some img) ids classId className
          (.error e) s).2.1 = .error e) := by
  refine ⟨fun _ _ _ _ _ _ _ _ => ⟨rfl, rfl, rfl, rfl, rfl⟩, ?_, ?_, ?_⟩
  · intro aid e s found h
    unfold deleteAnno
    rw [h]
    exact ⟨rfl, rfl, rfl, rfl, rfl⟩
  · intro aid data e s found h
    unfold updateAnno
    rw [h]
    exact ⟨rfl, rfl, rfl, rfl, rfl⟩
  · intro img ids classId className e s h
    unfold mergeAnnos
    rw [if_neg]
    · exact ⟨rfl, rfl, rfl, rfl, rfl⟩
    · simp [Nat.not_lt.mpr h]

/-- C4, witness: the failure conclusions at a concrete state with
history on both stacks. -/
theorem C4_witness :
    (saveAnno (some 3) annB.segmentation annB.bbox annB.area annB.class_id
        annB.class_name (.error "down") stHist).1.annotations
      = stHist.annotations ∧
    (deleteAnno 1 (.error "down") stHist).1.undoStack = stHist.undoStack ∧
    (updateAnno 1 (classOnlyPayload annB) (.error "down")
        stHist).1.redoStack = stHist.redoStack ∧
    (mergeAnnos (some 3) [1, 2] 1 "cell" (.error "down") stHist).2.1
      = .error "down" :=
  ⟨(C4_forward_failure_is_atomic.1 3 annB.segmentation annB.bbox annB.area
      annB.class_id annB.class_name "down" stHist).1,
   ((C4_forward_failure_is_atomic.2.1 1 "down" stHist annA
      (by decide)).2).1,
   (((C4_forward_failure_is_atomic.2.2.1 1 (classOnlyPayload annB) "down"
      stHist annA (by decide)).2).2).1,
   ((((C4_forward_failure_is_atomic.2.2.2 3 [1, 2] 1 "cell" "down" stHist
      (by decide)).2).2).2).2⟩

/-- C5, counterexample: with imageId unset, saveAnnotation does not
propagate an error — it resolves to null, makes no collaborator call and
leaves the state untouched, refuting the claimed failure. -/
theorem C5_counterexample :
    ¬ propagatesError (saveAnno none annA.segmentation annA.bbox annA.area
        annA.class_id annA.class_name (.ok annA) stHist).2.1 ∧
    (saveAnno none annA.segmentation annA.bbox annA.area annA.class_id
        annA.class_name (.ok annA) stHist).1 = stHist ∧
    (saveAnno none annA.segmentation annA.bbox annA.area annA.class_id
        annA.class_name (.ok annA) stHist).2.2 = [] := by
  refine ⟨?_, rfl, rfl⟩
  rintro ⟨e, h⟩
  exact Except.noConfusion h

/-- C5, amended: with imageId unset, saveAnnotation is a silent no-op:
it returns null (no error is thrown), issues no collaborator call, and
changes no local state, whatever arguments it is given. -/
theorem C5_save_without_image_silent_noop :
    ∀ (seg : PolySet) (bbox : List Int) (area : Int) (classId : Int)
      (className : String) (res : Except String Anno) (s : AnnState),
      saveAnno none seg bbox area classId className res s
        = (s, .ok none, []) :=
  fun _ _ _ _ _ _ _ => rfl

/-- C3, counterexample: changing the active slice to no image leaves both
stacks as they were — at a state with one record on each stack, the load
effect for a null imageId resets neither stack, refuting the claim that
every slice change resets them. -/
theorem C3_counterexample :
    ¬ ((loadEffect none (.ok []) stHist).1.undoStack = [] ∧
       (loadEffect none (.ok []) stHist).1.redoStack = []) := by
  decide

/-- C3, amended: the two stacks are reset exactly by a successful load of
a set imageId; when the imageId is unset the effect only empties the
annotations list and leaves both stacks untouched, and when the fetch
fails both stacks and the list are left untouched and only the error is
set. -/
theorem C3_stacks_reset_only_on_successful_load :
    (∀ (fr : Except String (List Anno)) (s : AnnState),
        (loadEffect none fr s).1.undoStack = s.undoStack ∧
        (loadEffect none fr s).1.redoStack = s.redoStack ∧
        (loadEffect none fr s).1.annotations = []) ∧
    (∀ (img : Nat) (data : List Anno) (s : AnnState),
        (loadEffect (some img) (.ok data) s).1.undoStack = [] ∧
        (loadEffect (some img) (.ok data) s).1.redoStack = [] ∧
        (loadEffect (some img) (.ok data) s).1.annotations = data) ∧
    (∀ (img : Nat) (e : String) (s : AnnState),
        (loadEffect (some img) (.error e) s).1.undoStack = s.undoStack ∧
        (loadEffect (some img) (.error e) s).1.redoStack = s.redoStack ∧
        (loadEffect (some img) (.error e) s).1.annotations = s.annotations ∧
        (loadEffect (some img) (.error e) s).1.error = some e) :=
  ⟨fun _ _ => ⟨rfl, rfl, rfl⟩, fun _ _ _ => ⟨rfl, rfl, rfl⟩,
   fun _ _ _ => ⟨rfl, rfl, rfl, rfl⟩⟩

/-- A sample preview produced by the oracle. -/
def pv0 : Preview :=
  { polygon := [[1, 1, 3, 1, 3, 3, 1, 3]], bbox := [1, 1, 2, 2], area := 4 }

/-- A sample confirmed preview. -/
def cp0 : ConfirmedPreview :=
  { polygon := [[5, 5, 7, 5, 7, 7, 5, 7]], bbox := [5, 5, 2, 2], area := 4,
    classId := 1, className := "cell", sourceId := 1 }

/-- A SAM state with a preview present and slice 2 encoded. -/
def sam0 : SamState :=
  { preview := some pv0, encodedImageId := some 2, samError := none }

/-- The default transfer settings. -/
def stg0 : Settings := { positivePoints := 2, negativePoints := 1 }

/-- The idle transfer state. -/
def idleTransfer : TransferState :=
  { isActive := false, sourceAnnotations := [], currentIndex := 0,
    confirmedPreviews := [], transferPoints := none, isLoading := false,
    error := none }

/-- An active transfer positioned at the last (only) source annotation. -/
def activeOne : TransferState :=
  { idleTransfer with
      isActive := true
      sourceAnnotations := [annA] }

/-- An active transfer mid-way: two sources, index 1, one confirmed. -/
def activeMid : TransferState :=
  { idleTransfer with
      isActive := true
      sourceAnnotations := [annA, annB]
      currentIndex := 1
      confirmedPreviews := [cp0] }

/-- A points-generation oracle that always succeeds. -/
def genEnv0 : GenEnv := fun _ _ _ _ =>
  .ok { positive_points := [{ x := 1, y := 1, label := 1 },
                            { x := 2, y := 2, label := 1 }],
        negative_points := [{ x := 0, y := 0, label := 0 }] }

/-- A SAM collaborator whose calls always succeed. -/
def samEnv0 : SamEnv :=
  { encodeRes := fun _ => .ok (),
    segmentRes := fun _ _ _ => .ok pv0 }

/-- generateAndSegment never touches the workflow-position fields of the
transfer state: isActive, sourceAnnotations, currentIndex and
confirmedPreviews are returned unchanged on every path. -/
theorem generateAndSegment_preserves_position (genEnv : GenEnv)
    (samEnv : SamEnv) (cur : Option Nat) (src : Option Anno)
    (stg : Settings) (exAnns : Option (List Anno)) (sam : SamState)
    (t : TransferState) :
    (generateAndSegment genEnv samEnv cur src stg exAnns sam t).transfer.isActive
      = t.isActive ∧
    (generateAndSegment genEnv samEnv cur src stg exAnns sam t).transfer.sourceAnnotations
      = t.sourceAnnotations ∧
    (generateAndSegment genEnv samEnv cur src stg exAnns sam t).transfer.currentIndex
      = t.currentIndex ∧
    (generateAndSegment genEnv samEnv cur src stg exAnns sam t).transfer.confirmedPreviews
      = t.confirmedPreviews := by
  unfold generateAndSegment
  cases cur with
  | none => cases src <;> exact ⟨rfl, rfl, rfl, rfl⟩
  | some img =>
    cases src with
    | none => exact ⟨rfl, rfl, rfl, rfl⟩
    | some a =>
      dsimp only
      cases genEnv a.segmentation a.bbox stg.positivePoints
          stg.negativePoints with
      | error e => exact ⟨rfl, rfl, rfl, rfl⟩
      | ok pd =>
        dsimp only
        cases (samSegment samEnv img (pd.positive_points ++ pd.negative_points)
            (if (buildExclusions exAnns t.confirmedPreviews).length > 0
             then some (buildExclusions exAnns t.confirmedPreviews)
             else none) sam).2.1 <;>
          exact ⟨rfl, rfl, rfl, rfl⟩

/-- C6, counterexample: at an active transfer whose only source
annotation is current (index 0 of 1) and with a preview present,
confirmCurrent leaves currentIndex at 0 — it does not advance it by one
as the claim states it does unconditionally. -/
theorem C6_counterexample :
    (confirmCurrent (some pv0) activeOne).transfer.currentIndex
        = activeOne.currentIndex ∧
    ¬ ((confirmCurrent (some pv0) activeOne).transfer.currentIndex
        = activeOne.currentIndex + 1) := by
  decide

/-- C6, amended: with a preview and a current source annotation,
confirmCurrent appends exactly one entry (the preview fields plus
classId/className/sourceId from the current source annotation) to
confirmedPreviews; it advances currentIndex and triggers regeneration
for the next source annotation only when more remain; at the last source
annotation it leaves currentIndex unchanged, clears the preview and the
transfer points, and allProcessed becomes true. With a null preview it
is a no-op. -/
theorem C6_confirm_appends_and_advances_only_if_more_remain :
    (∀ (pv : Preview) (t : TransferState) (cur : Anno),
        currentAnno t = some cur →
        (confirmCurrent (some pv) t).transfer.confirmedPreviews
          = t.confirmedPreviews
            ++ [{ polygon := pv.polygon, bbox := pv.bbox, area := pv.area,
                  classId := cur.class_id, className := cur.class_name,
                  sourceId := cur.id }] ∧
        (t.currentIndex + 1 < t.sourceAnnotations.length →
          (confirmCurrent (some pv) t).transfer.currentIndex
            = t.currentIndex + 1 ∧
          (confirmCurrent (some pv) t).regenTarget
            = t.sourceAnnotations[t.currentIndex + 1]? ∧
          (confirmCurrent (some pv) t).preview = some pv) ∧
        (¬ t.currentIndex + 1 < t.sourceAnnotations.length →
          (confirmCurrent (some pv) t).transfer.currentIndex
            = t.currentIndex ∧
          (confirmCurrent (some pv) t).preview = none ∧
          (confirmCurrent (some pv) t).transfer.transferPoints = none ∧
          allProcessed (confirmCurrent (some pv) t).preview
            (confirmCurrent (some pv) t).transfer = true)) ∧
    (∀ (t : TransferState),
        confirmCurrent none t
          = { transfer := t, preview := none, regenTarget := none }) := by
  constructor
  · intro pv t cur h
    have hb : (t.isActive && !t.sourceAnnotations.isEmpty) = true := by
      by_contra hb
      unfold currentAnno at h
      rw [if_neg hb] at h
      exact Option.noConfusion h
    have hact : t.isActive = true := by
      cases hia : t.isActive with
      | true => rfl
      | false => rw [hia] at hb; simp at hb
    unfold confirmCurrent
    rw [h]
    dsimp only
    by_cases hlt : t.currentIndex + 1 < t.sourceAnnotations.length
    · rw [if_pos hlt]
      exact ⟨rfl, fun _ => ⟨rfl, rfl, rfl⟩, fun hn => absurd hlt hn⟩
    · rw [if_neg hlt]
      refine ⟨rfl, fun hc => absurd hc hlt, fun _ => ⟨rfl, rfl, rfl, ?_⟩⟩
      simp only [allProcessed, hact, Option.isNone_none, Bool.and_true,
        Bool.true_and, decide_eq_true_eq]
      omega
  · intro t
    rfl

/-- C6, witness: the amended statement applied at the concrete one-source
active transfer: confirming at its last source annotation keeps index 0
and clears the preview. -/
theorem C6_witness :
    (confirmCurrent (some pv0) activeOne).preview = none ∧
    (confirmCurrent (some pv0) activeOne).transfer.currentIndex
      = activeOne.currentIndex :=
  ⟨((C6_confirm_appends_and_advances_only_if_more_remain.1 pv0 activeOne
      annA (by decide)).2.2 (by decide)).2.1,
   ((C6_confirm_appends_and_advances_only_if_more_remain.1 pv0 activeOne
      annA (by decide)).2.2 (by decide)).1⟩

/-- C7, counterexample: startTransfer invoked on an already-active
transfer (two sources, index 1, one confirmed preview) with a previous
slice and a successful non-empty fetch does restart the workflow:
currentIndex is reset to 0 and confirmedPreviews is cleared, refuting
the claim that invoking it while Active leaves them unchanged. -/
theorem C7_counterexample :
    activeMid.isActive = true ∧
    (startTransfer genEnv0 samEnv0 (some 1) (some 2) (.ok [annB]) stg0
        (some []) sam0 activeMid).1.confirmedPreviews = [] ∧
    ¬ (activeMid.confirmedPreviews = []) ∧
    (startTransfer genEnv0 samEnv0 (some 1) (some 2) (.ok [annB]) stg0
        (some []) sam0 activeMid).1.currentIndex = 0 ∧
    ¬ (activeMid.currentIndex = 0) := by
  decide

/-- C7, amended: the enabled-flag canStartTransfer is true exactly when a
previous slice exists and the workflow is not already active; with no
previous slice, startTransfer sets the error message and changes nothing
else (in particular an idle workflow stays idle); but startTransfer
itself has no isActive guard: on any successful non-empty fetch it
restarts the workflow — index 0, empty confirmed list, fresh source
snapshot, active — regardless of the prior state. -/
theorem C7_startTransfer_guard_is_external :
    (∀ (prev : Option Nat) (active : Bool),
        canStartTransfer prev active = true
          ↔ (∃ p, prev = some p) ∧ active = false) ∧
    (∀ (genEnv : GenEnv) (samEnv : SamEnv) (cur : Option Nat)
        (fr : Except String (List Anno)) (stg : Settings)
        (exAnns : Option (List Anno)) (sam : SamState) (t : TransferState),
        startTransfer genEnv samEnv none cur fr stg exAnns sam t
          = ({ t with error := some "No previous slice available" },
             sam, [])) ∧
    (∀ (genEnv : GenEnv) (samEnv : SamEnv) (prevId : Nat)
        (cur : Option Nat) (prevAnns : List Anno) (stg : Settings)
        (exAnns : Option (List Anno)) (sam : SamState) (t : TransferState),
        prevAnns ≠ [] →
        (startTransfer genEnv samEnv (some prevId) cur (.ok prevAnns) stg
            exAnns sam t).1.isActive = true ∧
        (startTransfer genEnv samEnv (some prevId) cur (.ok prevAnns) stg
            exAnns sam t).1.sourceAnnotations = prevAnns ∧
        (startTransfer genEnv samEnv (some prevId) cur (.ok prevAnns) stg
            exAnns sam t).1.currentIndex = 0 ∧
        (startTransfer genEnv samEnv (some prevId) cur (.ok prevAnns) stg
            exAnns sam t).1.confirmedPreviews = []) := by
  refine ⟨?_, fun _ _ _ _ _ _ _ _ => rfl, ?_⟩
  · intro prev active
    cases prev <;> cases active <;> simp [canStartTransfer]
  · intro genEnv samEnv prevId cur prevAnns stg exAnns sam t hne
    unfold startTransfer
    dsimp only
    rw [if_neg (by simpa using hne)]
    dsimp only
    have hp := generateAndSegment_preserves_position genEnv samEnv cur
      prevAnns[0]? stg exAnns sam
      { t with
          isLoading := true
          error := none
          sourceAnnotations := prevAnns
          currentIndex := 0
          confirmedPreviews := []
          isActive := true }
    exact ⟨hp.1, hp.2.1, hp.2.2.1, hp.2.2.2⟩

/-- C7, witness: the no-previous-slice branch and the restart branch of
the amended statement at concrete inputs. -/
theorem C7_witness :
    startTransfer genEnv0 samEnv0 none (some 2) (.ok [annB]) stg0 (some [])
        sam0 idleTransfer
      = ({ idleTransfer with error := some "No previous slice available" },
         sam0, []) ∧
    (startTransfer genEnv0 samEnv0 (some 1) (some 2) (.ok [annB]) stg0
        (some []) sam0 activeMid).1.currentIndex = 0 :=
  ⟨C7_startTransfer_guard_is_external.2.1 genEnv0 samEnv0 (some 2)
      (.ok [annB]) stg0 (some []) sam0 idleTransfer,
   (C7_startTransfer_guard_is_external.2.2 genEnv0 samEnv0 1 (some 2)
      [annB] stg0 (some []) sam0 activeMid (by decide)).2.2.1⟩

/-- Reformulation bridge: the length-positivity test used by the source
agrees with an emptiness test on the same list. -/
theorem lengthPosArg_eq_emptyTest (l : List PolySet) :
    (if l.length > 0 then some l else none)
      = (if l = [] then none else some l) := by
  cases l <;> simp

/-- C10: when points generation succeeds, generateAndSegment invokes
sam.segment with the current image, the concatenated positive and
negative points, and an exclusion argument that is null exactly when
there are no exclusion polygons at all (no existing annotations on the
slice and no confirmed previews) and otherwise is the concatenation of
all existing annotations' segmentations followed by all confirmed
previews' polygons — never an empty list. -/
theorem C10_exclusion_argument_null_or_concat :
    ∀ (genEnv : GenEnv) (samEnv : SamEnv) (img : Nat) (a : Anno)
      (stg : Settings) (exAnns : Option (List Anno)) (sam : SamState)
      (t : TransferState) (pd : PointsData),
      genEnv a.segmentation a.bbox stg.positivePoints stg.negativePoints
        = .ok pd →
      (generateAndSegment genEnv samEnv (some img) (some a) stg exAnns sam
          t).segInvocation
        = some { imageId := img,
                 points := pd.positive_points ++ pd.negative_points,
                 existingPolygons :=
                   if buildExclusions exAnns t.confirmedPreviews = []
                   then none
                   else some (buildExclusions exAnns t.confirmedPreviews) } := by
  intro genEnv samEnv img a stg exAnns sam t pd hg
  unfold generateAndSegment
  dsimp only
  rw [hg]
  dsimp only
  rw [← lengthPosArg_eq_emptyTest]
  cases (samSegment samEnv img (pd.positive_points ++ pd.negative_points)
      (if (buildExclusions exAnns t.confirmedPreviews).length > 0
       then some (buildExclusions exAnns t.confirmedPreviews)
       else none) sam).2.1 <;> rfl

/-- C10, witness: the statement applied with no existing annotations and
no confirmed previews (the argument is null), and again with one
existing annotation and one confirmed preview (the argument is their
concatenation). -/
theorem C10_witness :
    (generateAndSegment genEnv0 samEnv0 (some 2) (some annA) stg0
        (some []) sam0 idleTransfer).segInvocation
      = some { imageId := 2,
               points := [{ x := 1, y := 1, label := 1 },
                          { x := 2, y := 2, label := 1 },
                          { x := 0, y := 0, label := 0 }],
               existingPolygons := none } ∧
    (generateAndSegment genEnv0 samEnv0 (some 2) (some annA) stg0
        (some [annB]) sam0 activeMid).segInvocation
      = some { imageId := 2,
               points := [{ x := 1, y := 1, label := 1 },
                          { x := 2, y := 2, label := 1 },
                          { x := 0, y := 0, label := 0 }],
               existingPolygons := some [annB.segmentation, cp0.polygon] } := by
  constructor
  · have h := C10_exclusion_argument_null_or_concat genEnv0 samEnv0 2 annA
      stg0 (some []) sam0 idleTransfer
      { positive_points := [{ x := 1, y := 1, label := 1 },
                            { x := 2, y := 2, label := 1 }],
        negative_points := [{ x := 0, y := 0, label := 0 }] } rfl
    simpa [genEnv0, buildExclusions, idleTransfer] using h
  · have h := C10_exclusion_argument_null_or_concat genEnv0 samEnv0 2 annA
      stg0 (some [annB]) sam0 activeMid
      { positive_points := [{ x := 1, y := 1, label := 1 },
                            { x := 2, y := 2, label := 1 }],
        negative_points := [{ x := 0, y := 0, label := 0 }] } rfl
    simpa [genEnv0, buildExclusions, activeMid, idleTransfer] using h

/-- When every create call of the commit loop succeeds, the loop reports
success and appends one annotation per confirmed preview. -/
theorem commitLoop_all_ok :
    ∀ (ps : List ConfirmedPreview) (oracle : Nat → Except String Anno)
      (f : Nat → Anno) (img : Nat) (s : AnnState),
      (∀ n, oracle n = .ok (f n)) →
      (commitLoop (some img) oracle ps s).2 = true ∧
      (commitLoop (some img) oracle ps s).1.annotations.length
        = s.annotations.length + ps.length := by
  intro ps
  induction ps with
  | nil =>
    intro oracle f img s h
    exact ⟨rfl, by simp [commitLoop]⟩
  | cons p rest ih =>
    intro oracle f img s h
    unfold commitLoop
    rw [h 0]
    dsimp only [saveAnno]
    have hr := ih (fun n => oracle (n + 1)) (fun n => f (n + 1)) img
      { s with annotations := s.annotations ++ [f 0],
               undoStack := s.undoStack ++ [.create (f 0)],
               redoStack := [] }
      (fun n => h (n + 1))
    refine ⟨hr.1, ?_⟩
    rw [hr.2]
    simp
    omega

/-- When the first k create calls of the commit loop succeed and call k
fails, the loop reports failure, exactly k annotations were appended,
and the error message of the failing call is set. -/
theorem commitLoop_prefix_error :
    ∀ (ps1 : List ConfirmedPreview) (p : ConfirmedPreview)
      (ps2 : List ConfirmedPreview) (oracle : Nat → Except String Anno)
      (f : Nat → Anno) (img : Nat) (e : String) (s : AnnState),
      (∀ i, i < ps1.length → oracle i = .ok (f i)) →
      oracle ps1.length = .error e →
      (commitLoop (some img) oracle (ps1 ++ p :: ps2) s).2 = false ∧
      (commitLoop (some img) oracle (ps1 ++ p :: ps2) s).1.annotations.length
        = s.annotations.length + ps1.length ∧
      (commitLoop (some img) oracle (ps1 ++ p :: ps2) s).1.error = some e := by
  intro ps1
  induction ps1 with
  | nil =>
    intro p ps2 oracle f img e s h h0
    simp only [List.nil_append, List.length_nil] at h0 ⊢
    unfold commitLoop
    rw [h0]
    dsimp only [saveAnno]
    exact ⟨rfl, by simp, rfl⟩
  | cons q rest ih =>
    intro p ps2 oracle f img e s h h0
    simp only [List.cons_append]
    unfold commitLoop
    rw [h 0 (by simp)]
    dsimp only [saveAnno]
    have hr := ih p ps2 (fun n => oracle (n + 1)) (fun n => f (n + 1)) img e
      { s with annotations := s.annotations ++ [f 0],
               undoStack := s.undoStack ++ [.create (f 0)],
               redoStack := [] }
      (fun i hi => h (i + 1) (by simpa using Nat.succ_lt_succ hi))
      (by simpa using h0)
    refine ⟨hr.1, ?_, hr.2.2⟩
    rw [hr.2.1]
    simp
    omega

/-- C9: if the batch commit of confirmed transfer previews fails partway
(the first k creates succeed, create k fails), cancelTransfer is not
reached: the transfer state — including the untrimmed confirmedPreviews
list and the Active flag — and the preview are returned unchanged,
exactly the k already-committed annotations were added to the store (with
the error set), and a retried commit that then succeeds re-creates every
confirmed preview, the already-committed k included. -/
theorem C9_partial_commit_keeps_previews_untrimmed :
    ∀ (img : Nat) (oracle : Nat → Except String Anno) (f : Nat → Anno)
      (s : AnnState) (t : TransferState) (preview : Option Preview)
      (ps1 : List ConfirmedPreview) (p : ConfirmedPreview)
      (ps2 : List ConfirmedPreview) (e : String),
      t.confirmedPreviews = ps1 ++ p :: ps2 →
      (∀ i, i < ps1.length → oracle i = .ok (f i)) →
      oracle ps1.length = .error e →
      (handleSaveAllTransfers (some img) oracle s t preview).2.1 = t ∧
      (handleSaveAllTransfers (some img) oracle s t preview).2.2
        = preview ∧
      (handleSaveAllTransfers (some img) oracle s t
          preview).2.1.confirmedPreviews = t.confirmedPreviews ∧
      (handleSaveAllTransfers (some img) oracle s t
          preview).1.annotations.length
        = s.annotations.length + ps1.length ∧
      (handleSaveAllTransfers (some img) oracle s t preview).1.error
        = some e ∧
      (∀ (oracle2 : Nat → Except String Anno) (g : Nat → Anno),
        (∀ n, oracle2 n = .ok (g n)) →
        (handleSaveAllTransfers (some img) oracle2
            (handleSaveAllTransfers (some img) oracle s t preview).1 t
            preview).1.annotations.length
          = s.annotations.length + ps1.length
            + t.confirmedPreviews.length) := by
  intro img oracle f s t preview ps1 p ps2 e ht h h0
  have hcl := commitLoop_prefix_error ps1 p ps2 oracle f img e s h h0
  have hmain :
      handleSaveAllTransfers (some img) oracle s t preview
        = ((commitLoop (some img) oracle (ps1 ++ p :: ps2) s).1, t,
           preview) := by
    unfold handleSaveAllTransfers
    rw [ht]
    rw [if_neg (by simp)]
    dsimp only
    rw [hcl.1]
    rfl
  rw [hmain]
  refine ⟨rfl, rfl, rfl, hcl.2.1, hcl.2.2, ?_⟩
  intro oracle2 g h2
  have hok := commitLoop_all_ok (ps1 ++ p :: ps2) oracle2 g img
    (commitLoop (some img) oracle (ps1 ++ p :: ps2) s).1 h2
  have hmain2 :
      handleSaveAllTransfers (some img) oracle2
          (commitLoop (some img) oracle (ps1 ++ p :: ps2) s).1 t preview
        = ((commitLoop (some img) oracle2 (ps1 ++ p :: ps2)
              (commitLoop (some img) oracle (ps1 ++ p :: ps2) s).1).1,
           (cancelTransfer t preview).1, (cancelTransfer t preview).2) := by
    unfold handleSaveAllTransfers
    rw [ht]
    rw [if_neg (by simp)]
    dsimp only
    rw [hok.1]
    rfl
  rw [hmain2]
  dsimp only
  rw [hok.2, hcl.2.1, ht]

/-- A second sample confirmed preview. -/
def cp1 : ConfirmedPreview :=
  { polygon := [[8, 8, 9, 8, 9, 9, 8, 9]], bbox := [8, 8, 1, 1], area := 1,
    classId := 2, className := "nucleus", sourceId := 2 }

/-- An active transfer with two confirmed previews awaiting commit. -/
def stTrans9 : TransferState :=
  { idleTransfer with
      isActive := true
      sourceAnnotations := [annA, annB]
      currentIndex := 1
      confirmedPreviews := [cp0, cp1] }

/-- A commit oracle whose first create succeeds and whose second fails. -/
def oracleFail : Nat → Except String Anno :=
  fun n => if n = 0 then .ok annB else .error "boom"

/-- C9, witness: committing two confirmed previews where the second
create fails leaves the transfer state untouched (previews untrimmed),
one annotation committed, and the error recorded. -/
theorem C9_witness :
    (handleSaveAllTransfers (some 2) oracleFail emptyAnnState stTrans9
        (some pv0)).2.1 = stTrans9 ∧
    (handleSaveAllTransfers (some 2) oracleFail emptyAnnState stTrans9
        (some pv0)).1.annotations.length
      = emptyAnnState.annotations.length + [cp0].length ∧
    (handleSaveAllTransfers (some 2) oracleFail emptyAnnState stTrans9
        (some pv0)).1.error = some "boom" := by
  have h := C9_partial_commit_keeps_previews_untrimmed 2 oracleFail
    (fun _ => annB) emptyAnnState stTrans9 (some pv0) [cp0] cp1 [] "boom"
    rfl
    (by
      intro i hi
      have hi0 : i = 0 := Nat.lt_one_iff.mp hi
      subst hi0
      rfl)
    rfl
  exact ⟨h.1, h.2.2.2.1, h.2.2.2.2.1⟩

/-- Folding further in-window effect re-runs from a state with a fresh
pending timer neither fires the timer nor issues any call: each re-run
only replaces the pending timer with one carrying the new point list. -/
theorem debRun_aux :
    ∀ (evs : List (Nat × Point)) (acc : List Point) (tl : Nat)
      (cs : List (List Point)),
      withinWindowB tl evs = true →
      List.foldl debStep { pending := some (tl + 100, acc), calls := cs }
          (cumulEvents acc evs)
        = { pending := some (lastTimeD tl evs + 100, acc ++ evs.map Prod.snd),
            calls := cs } := by
  intro evs
  induction evs with
  | nil =>
    intro acc tl cs h
    simp [cumulEvents, lastTimeD]
  | cons ev rest ih =>
    intro acc tl cs h
    obtain ⟨t, p⟩ := ev
    unfold withinWindowB at h
    simp only [Bool.and_eq_true, decide_eq_true_eq] at h
    obtain ⟨⟨h1, h2⟩, h3⟩ := h
    unfold cumulEvents
    simp only [List.foldl_cons]
    have hstep :
        debStep { pending := some (tl + 100, acc), calls := cs }
            (t, acc ++ [p])
          = { pending := some (t + 100, acc ++ [p]), calls := cs } := by
      unfold debStep
      dsimp only
      rw [if_neg (show ¬((acc ++ [p]).isEmpty = true) by simp),
          if_neg (show ¬(tl + 100 ≤ t) by omega)]
    rw [hstep, ih (acc ++ [p]) t cs h3]
    simp [lastTimeD, List.append_assoc]

/-- C8: any non-empty sequence of point additions whose consecutive gaps
all lie inside the 100ms quiet window produces, after the window elapses,
exactly one segment call, and that call carries the final accumulated
point set; moreover each new addition that arrives before a pending
timer's deadline cancels that not-yet-issued call and starts a fresh
100ms timer carrying the new point set. -/
theorem C8_debounce_coalesces_to_single_final_call :
    (∀ (t0 : Nat) (p0 : Point) (rest : List (Nat × Point)),
        withinWindowB t0 rest = true →
        debFlush (debRun (cumulEvents [] ((t0, p0) :: rest)))
          = [p0 :: rest.map Prod.snd]) ∧
    (∀ (ft : Nat) (qs : List Point) (cs : List (List Point)) (t : Nat)
        (ps : List Point),
        t < ft → ps ≠ [] →
        debStep { pending := some (ft, qs), calls := cs } (t, ps)
          = { pending := some (t + 100, ps), calls := cs }) := by
  constructor
  · intro t0 p0 rest h
    unfold debRun cumulEvents
    simp only [List.foldl_cons]
    have hfirst :
        debStep { pending := none, calls := [] } (t0, [] ++ [p0])
          = { pending := some (t0 + 100, [p0]), calls := [] } := rfl
    rw [hfirst]
    simp only [List.nil_append]
    rw [debRun_aux rest [p0] t0 [] h]
    simp [debFlush]
  · intro ft qs cs t ps hlt hne
    unfold debStep
    dsimp only
    rw [if_neg (show ¬(ps.isEmpty = true) by simpa using hne),
        if_neg (show ¬(ft ≤ t) by omega)]

/-- The five rapid prompt points of the witness scenario. -/
def q1 : Point := { x := 1, y := 1, label := 1 }

/-- Second witness point. -/
def q2 : Point := { x := 2, y := 1, label := 1 }

/-- Third witness point. -/
def q3 : Point := { x := 3, y := 1, label := 1 }

/-- Fourth witness point. -/
def q4 : Point := { x := 4, y := 1, label := 0 }

/-- Fifth witness point. -/
def q5 : Point := { x := 5, y := 1, label := 0 }

/-- C8, witness: five additions 10ms apart (all inside the 100ms quiet
window) coalesce into exactly one segment call carrying all five points. -/
theorem C8_witness :
    debFlush (debRun (cumulEvents []
        [(0, q1), (10, q2), (20, q3), (30, q4), (40, q5)]))
      = [[q1, q2, q3, q4, q5]] := by
  have h := C8_debounce_coalesces_to_single_final_call.1 0 q1
    [(10, q2), (20, q3), (30, q4), (40, q5)] (by decide)
  simpa using h
